import Mathlib

/-
  Verification development for the road_intersection simulation
  (src/road_intersection/src/main.rs).

  The Rust program is shallowly embedded: machine integers (i32/u32) become
  ℤ/ℕ (the simulation keeps every coordinate within a few hundred pixels of
  the 800x800 window, far from any 32-bit boundary), and the few f32 values
  (VEHICLE_SPEED = 2.5, SAFETY_GAP = 20.0, and the lane-capacity quotient)
  become ℚ; the constants and the casts the code performs on them are exact
  in f32 at these magnitudes, and the one inexact f32 quotient (75.0/45.0)
  has the same floor as the exact one.  Instant/Duration are modelled by an
  absolute tick clock `now : ℕ` threaded into `LightController.update`,
  with `phaseStart` the recorded instant of the last phase change.
-/

set_option linter.unusedVariables false

namespace RoadIntersection

/- The arithmetic operations on ℚ are `@[irreducible]` in core, which
blocks `decide` during elaboration (the kernel itself reduces them fine);
restore the default reducibility for this development. -/
attribute [local semireducible] Rat.add Rat.mul Rat.sub Rat.inv Rat.ofScientific

/-- Constant `WINDOW_WIDTH` (main.rs line 9). -/
def WINDOW_WIDTH : ℕ := 800

/-- Constant `WINDOW_HEIGHT` (line 10). -/
def WINDOW_HEIGHT : ℕ := 800

/-- Constant `ROAD_WIDTH` (line 11). -/
def ROAD_WIDTH : ℕ := 150

/-- Constant `LANE_WIDTH = ROAD_WIDTH / 2` (line 12). -/
def LANE_WIDTH : ℕ := ROAD_WIDTH / 2

/-- Constant `VEHICLE_WIDTH` (line 14). -/
def VEHICLE_WIDTH : ℕ := 25

/-- Constant `VEHICLE_HEIGHT` (line 15). -/
def VEHICLE_HEIGHT : ℕ := 25

/-- Constant `VEHICLE_SPEED: f32 = 2.5` (line 16); exact in f32, embedded as ℚ. -/
def VEHICLE_SPEED : ℚ := 2.5

/-- Constant `SAFETY_GAP: f32 = 20.0` (line 17). -/
def SAFETY_GAP : ℚ := 20

/-- Enum `Route` (line 22). -/
inductive Route | Straight | Left | Right
deriving DecidableEq

/-- Enum `Origin` (line 25). -/
inductive Origin | North | South | East | West
deriving DecidableEq

/-- Type `sdl2::rect::Rect`: x/y are i32, width/height u32. -/
structure Rect where
  x : ℤ
  y : ℤ
  w : ℕ
  h : ℕ
deriving DecidableEq

/-- Accessor `Rect::right() = x + width` (SDL semantics). -/
def Rect.right (r : Rect) : ℤ := r.x + r.w

/-- Accessor `Rect::bottom() = y + height` (SDL semantics). -/
def Rect.bottom (r : Rect) : ℤ := r.y + r.h

/-- Type `sdl2::pixels::Color` restricted to the RGB triples the program uses. -/
structure Color where
  r : ℕ
  g : ℕ
  b : ℕ
deriving DecidableEq

/-- Struct `Vehicle` (lines 27-35). -/
structure Vehicle where
  rect : Rect
  vx : ℚ
  vy : ℚ
  color : Color
  origin : Origin
  is_stopped : Bool
  is_outbound : Bool
deriving DecidableEq

/-- Enum `LightState` (line 38). -/
inductive LightState | Red | Green
deriving DecidableEq

/-- Enum `Phase` (line 40). -/
inductive Phase | NorthSouth | EastWest
deriving DecidableEq

/-- Struct `TrafficLight` (lines 42-45). -/
structure TrafficLight where
  rect : Rect
  state : LightState
deriving DecidableEq

/-- Struct `LightController` (lines 47-55); the field `phase_timer :
Instant` becomes the absolute instant `phaseStart : ℕ`, `base_duration`
a ℕ. -/
structure LightController where
  n_light : TrafficLight
  e_light : TrafficLight
  s_light : TrafficLight
  w_light : TrafficLight
  phase : Phase
  phaseStart : ℕ
  baseDuration : ℕ
deriving DecidableEq

/-- Constructor `LightController::new()` (lines 58-80); the call
`Instant::now()` becomes the parameter `now`. -/
def LightController.new (now : ℕ) : LightController where
  n_light := { rect := ⟨((WINDOW_WIDTH / 2 - ROAD_WIDTH / 2 - 15 : ℕ) : ℤ),
                        ((WINDOW_HEIGHT / 2 + ROAD_WIDTH / 2 : ℕ) : ℤ), 15, 15⟩,
               state := LightState.Green }
  e_light := { rect := ⟨((WINDOW_WIDTH / 2 + ROAD_WIDTH / 2 : ℕ) : ℤ),
                        ((WINDOW_HEIGHT / 2 + ROAD_WIDTH / 2 : ℕ) : ℤ), 15, 15⟩,
               state := LightState.Red }
  s_light := { rect := ⟨((WINDOW_WIDTH / 2 - ROAD_WIDTH / 2 - 15 : ℕ) : ℤ),
                        ((WINDOW_HEIGHT / 2 - ROAD_WIDTH / 2 - 15 : ℕ) : ℤ), 15, 15⟩,
               state := LightState.Green }
  w_light := { rect := ⟨((WINDOW_WIDTH / 2 + ROAD_WIDTH / 2 : ℕ) : ℤ),
                        ((WINDOW_HEIGHT / 2 - ROAD_WIDTH / 2 - 15 : ℕ) : ℤ), 15, 15⟩,
               state := LightState.Red }
  phase := Phase.NorthSouth
  phaseStart := now
  baseDuration := 8

/-- Local `lane_capacity` (line 84): `(LANE_WIDTH as f32 / (VEHICLE_HEIGHT
as f32 + SAFETY_GAP)).floor() as usize`, computed exactly in ℚ (the f32
quotient rounds to about 1.6666666, whose floor agrees with the exact
value). -/
def laneCapacity : ℕ :=
  (((LANE_WIDTH : ℚ) / ((VEHICLE_HEIGHT : ℚ) + SAFETY_GAP)).floor).toNat

/-- Local `queue_size` for one origin (line 94):
`vehicles.iter().filter(|v| v.origin == origin && v.is_stopped).count()`. -/
def queueSize (vehicles : List Vehicle) (o : Origin) : ℕ :=
  (vehicles.filter (fun v => decide (v.origin = o) && v.is_stopped)).length

/-- Local `current_green_origins` (lines 87-90). -/
def greenOrigins : Phase → List Origin
  | Phase.NorthSouth => [Origin.North, Origin.South]
  | Phase.EastWest => [Origin.East, Origin.West]

/-- Local `congested_lanes` (lines 92-98): the number of currently green
origins whose queue of stopped vehicles exceeds `lane_capacity / 2`. -/
def congestedLaneCount (ph : Phase) (vehicles : List Vehicle) : ℕ :=
  (greenOrigins ph).countP (fun o => decide (laneCapacity / 2 < queueSize vehicles o))

/-- Method `LightController::update` (lines 82-124).  The two reads of
`phase_timer.elapsed()` become `now - phaseStart` (ℕ subtraction; the
clock never runs backwards). -/
def LightController.update (c : LightController) (now : ℕ) (vehicles : List Vehicle) :
    LightController :=
  let extend_green : Bool :=
    if c.baseDuration ≤ now - c.phaseStart then
      decide (0 < congestedLaneCount c.phase vehicles)
    else false
  if c.baseDuration ≤ now - c.phaseStart ∧ extend_green = false then
    match c.phase with
    | Phase.NorthSouth =>
        { c with phase := Phase.EastWest, phaseStart := now,
                 n_light := { c.n_light with state := LightState.Red },
                 s_light := { c.s_light with state := LightState.Red },
                 e_light := { c.e_light with state := LightState.Green },
                 w_light := { c.w_light with state := LightState.Green } }
    | Phase.EastWest =>
        { c with phase := Phase.NorthSouth, phaseStart := now,
                 e_light := { c.e_light with state := LightState.Red },
                 w_light := { c.w_light with state := LightState.Red },
                 n_light := { c.n_light with state := LightState.Green },
                 s_light := { c.s_light with state := LightState.Green } }
  else c

/-- Method `LightController::get_light_state_for` (lines 126-133). -/
def LightController.lightStateFor (c : LightController) : Origin → LightState
  | Origin.North => c.n_light.state
  | Origin.South => c.s_light.state
  | Origin.East => c.e_light.state
  | Origin.West => c.w_light.state

/-- Local `intersection_center_x = (WINDOW_WIDTH / 2) as i32` (line 200). -/
def intersectionCenterX : ℤ := ((WINDOW_WIDTH / 2 : ℕ) : ℤ)

/-- Local `intersection_center_y = (WINDOW_HEIGHT / 2) as i32` (line 201). -/
def intersectionCenterY : ℤ := ((WINDOW_HEIGHT / 2 : ℕ) : ℤ)

/-- Local `stop_line = (WINDOW_HEIGHT / 2 - ROAD_WIDTH / 2) as i32` (line 269). -/
def stopLine : ℤ := ((WINDOW_HEIGHT / 2 - ROAD_WIDTH / 2 : ℕ) : ℤ)

/-- The outbound transition (lines 222-249): if the vehicle is not yet
outbound and its leading edge has crossed the intersection center along its
travel axis, set the outbound flag and reassign the cross-axis coordinate
to the outbound lane.  Returns the new (is_outbound, rect) pair. -/
def afterCross (o : Origin) (outb : Bool) (r : Rect) : Bool × Rect :=
  if outb then (outb, r) else
  match o with
  | Origin.North =>
      if intersectionCenterY < r.y then (true, { r with x := intersectionCenterX + 10 })
      else (outb, r)
  | Origin.South =>
      if r.bottom < intersectionCenterY then (true, { r with x := intersectionCenterX + 10 })
      else (outb, r)
  | Origin.East =>
      if intersectionCenterX < r.right then (true, { r with y := intersectionCenterY + 10 })
      else (outb, r)
  | Origin.West =>
      if r.x < intersectionCenterX then (true, { r with y := intersectionCenterY - 25 - 10 })
      else (outb, r)

/-- Local `dist` (lines 254-259): signed gap ahead along the travel axis
between the current vehicle and a peer. -/
def gapAhead (o : Origin) (cur other : Rect) : ℤ :=
  match o with
  | Origin.North => other.y - cur.y
  | Origin.South => cur.y - other.y
  | Origin.East => other.x - cur.x
  | Origin.West => cur.x - other.x

/-- The gap test (line 260): `dist > 0 && (dist as f32) < (VEHICLE_HEIGHT
as f32 + SAFETY_GAP)`; the i32-to-f32 cast is exact at these magnitudes. -/
def isBlockingGap (d : ℤ) : Bool :=
  decide (0 < d) && decide ((d : ℚ) < (VEHICLE_HEIGHT : ℚ) + SAFETY_GAP)

/-- The collision-avoidance loop (lines 252-265): the vehicle is marked
stopped-by-car when some peer with the same origin and the same outbound
flag sits at a blocking gap ahead.  Here `self` carries the fields the loop
captured before mutating (`current_vehicle_rect`, `current_vehicle_origin`,
`current_vehicle_is_outbound`) and `others` is the `other_vehicles` list. -/
def stoppedByCar (self : Vehicle) (others : List Vehicle) : Bool :=
  others.any (fun w =>
    decide (w.origin = self.origin) && (w.is_outbound == self.is_outbound) &&
    isBlockingGap (gapAhead self.origin self.rect w.rect))

/-- Local `is_at_red_light` (lines 270-275), a function of the origin, the
pre-step rectangle and that origin's light only. -/
def isAtRedLight (o : Origin) (r : Rect) (light : LightState) : Bool :=
  match o with
  | Origin.South =>
      decide (light = LightState.Red) && decide (stopLine < r.bottom) &&
      decide (r.y < stopLine + (ROAD_WIDTH : ℤ))
  | Origin.North =>
      decide (light = LightState.Red) && decide (r.y < stopLine) &&
      decide (stopLine - (ROAD_WIDTH : ℤ) < r.bottom)
  | Origin.West =>
      decide (light = LightState.Red) && decide (stopLine < r.right) &&
      decide (r.x < stopLine + (ROAD_WIDTH : ℤ))
  | Origin.East =>
      decide (light = LightState.Red) && decide (r.x < stopLine) &&
      decide (stopLine - (ROAD_WIDTH : ℤ) < r.right)

/-- The red-light check as the loop body evaluates it (lines 268-275): it
reads the origin, the pre-step rectangle and that origin's light, and never
the outbound flag. -/
def redCheck (c : LightController) (v : Vehicle) : Bool :=
  isAtRedLight v.origin v.rect (c.lightStateFor v.origin)

/-- Rust `as i32` on an f32: truncation toward zero, exact for the
velocities the program uses. -/
def truncToInt (q : ℚ) : ℤ := if 0 ≤ q then q.floor else q.ceil

/-- Position integration (lines 281-282): add the i32-cast velocity
components to the rectangle position. -/
def moveRect (r : Rect) (vx vy : ℚ) : Rect :=
  { r with x := r.x + truncToInt vx, y := r.y + truncToInt vy }

/-- One iteration of the per-vehicle loop body (lines 203-284) for the
vehicle `self`, where `others` is the `other_vehicles` list the iteration
collected from the live collection.  The collision and red-light checks use
the fields captured at the top of the iteration (before the outbound
transition), exactly as the source captures `current_vehicle_rect`,
`current_vehicle_origin` and `current_vehicle_is_outbound`. -/
def vehicleStep (c : LightController) (self : Vehicle) (others : List Vehicle) : Vehicle :=
  let p := afterCross self.origin self.is_outbound self.rect
  if stoppedByCar self others || redCheck c self then
    { self with is_outbound := p.1, rect := p.2, is_stopped := true }
  else
    { self with is_outbound := p.1, rect := moveRect p.2 self.vx self.vy, is_stopped := false }

/-- One index step of the in-place loop (lines 203-284): vehicle `i` of the
current (partially updated) list is replaced by its stepped value, its
peers being every other entry of that same current list, exactly as the
`other_vehicles` collection reads them at the top of iteration `i`. -/
def updateAt (c : LightController) (vs : List Vehicle) (i : ℕ) : List Vehicle :=
  match vs[i]? with
  | none => vs
  | some v => vs.set i (vehicleStep c v (vs.eraseIdx i))

/-- State of the live list after the first `i` iterations of the
per-vehicle loop. -/
def passUpTo (c : LightController) (vs : List Vehicle) (i : ℕ) : List Vehicle :=
  (List.range i).foldl (updateAt c) vs

/-- The whole per-vehicle loop of one tick (`for i in 0..vehicles.len()`,
lines 203-284). -/
def motionPass (c : LightController) (vs : List Vehicle) : List Vehicle :=
  passUpTo c vs vs.length

/-- Spec-side definition for the refinement claim: a pass in which every
vehicle is stepped against the pre-tick snapshot of all the others, no
vehicle seeing any update made during the tick. -/
def snapshotPass (c : LightController) (vs : List Vehicle) : List Vehicle :=
  vs.enum.map (fun p => vehicleStep c p.2 (vs.eraseIdx p.1))

/-- The cull predicate (lines 286-289): a vehicle is retained when its
rectangle still touches the window. -/
def inSimBounds (v : Vehicle) : Bool :=
  decide (0 < v.rect.right) && decide (v.rect.x < (WINDOW_WIDTH : ℤ)) &&
  decide (0 < v.rect.bottom) && decide (v.rect.y < (WINDOW_HEIGHT : ℤ))

/-- The retain call `vehicles.retain(...)` (lines 286-289). -/
def cullVehicles (vs : List Vehicle) : List Vehicle := vs.filter inSimBounds

/-- The route draw (lines 354-358): `rng.gen_range(0..3)` mapped to a
`Route`.  The draw is bound to `_route` and never used again. -/
def routeOf : Fin 3 → Route
  | 0 => Route.Straight
  | 1 => Route.Left
  | _ => Route.Right

/-- The color table of `spawn_vehicle` (lines 360-365). -/
def colorFor : Origin → Color
  | Origin.North => ⟨255, 0, 0⟩
  | Origin.South => ⟨0, 255, 0⟩
  | Origin.East => ⟨0, 0, 255⟩
  | Origin.West => ⟨255, 255, 0⟩

/-- Function `spawn_vehicle` (lines 346-371); the random route draw becomes
the parameter `routeDraw`. -/
def spawn_vehicle (o : Origin) (routeDraw : Fin 3) : Vehicle :=
  let start : ℤ × ℤ × ℚ × ℚ :=
    match o with
    | Origin.North => (((WINDOW_WIDTH / 2 - VEHICLE_WIDTH - 10 : ℕ) : ℤ), 0, 0, VEHICLE_SPEED)
    | Origin.South => (((WINDOW_WIDTH / 2 - VEHICLE_WIDTH - 10 : ℕ) : ℤ),
                       ((WINDOW_HEIGHT - VEHICLE_HEIGHT : ℕ) : ℤ), 0, -VEHICLE_SPEED)
    | Origin.East => (0, ((WINDOW_HEIGHT / 2 - VEHICLE_HEIGHT - 10 : ℕ) : ℤ), VEHICLE_SPEED, 0)
    | Origin.West => (((WINDOW_WIDTH - VEHICLE_WIDTH : ℕ) : ℤ),
                      ((WINDOW_HEIGHT / 2 + 10 : ℕ) : ℤ), -VEHICLE_SPEED, 0)
  let _route := routeOf routeDraw
  { rect := ⟨start.1, start.2.1, VEHICLE_WIDTH, VEHICLE_HEIGHT⟩,
    vx := start.2.2.1, vy := start.2.2.2, color := colorFor o, origin := o,
    is_stopped := false, is_outbound := false }

/-- Invariant under scrutiny: the two lights of the active phase are Green
and the other two Red. -/
def lightsMatchPhase (c : LightController) : Prop :=
  (c.phase = Phase.NorthSouth →
      c.n_light.state = LightState.Green ∧ c.s_light.state = LightState.Green ∧
      c.e_light.state = LightState.Red ∧ c.w_light.state = LightState.Red) ∧
  (c.phase = Phase.EastWest →
      c.e_light.state = LightState.Green ∧ c.w_light.state = LightState.Green ∧
      c.n_light.state = LightState.Red ∧ c.s_light.state = LightState.Red)

/-- The four light states in a fixed order. -/
def lightStates (c : LightController) : List LightState :=
  [c.n_light.state, c.e_light.state, c.s_light.state, c.w_light.state]

/-- Number of Green lights among the four. -/
def greenCount (c : LightController) : ℕ :=
  (lightStates c).countP (fun s => decide (s = LightState.Green))

/-- The opposite phase pair. -/
def oppositePhase : Phase → Phase
  | Phase.NorthSouth => Phase.EastWest
  | Phase.EastWest => Phase.NorthSouth

/-- The flip branch of `LightController::update` (lines 105-123), extracted
so the two update outcomes can be named in lemmas. -/
def flippedController (c : LightController) (now : ℕ) : LightController :=
  match c.phase with
  | Phase.NorthSouth =>
      { c with phase := Phase.EastWest, phaseStart := now,
               n_light := { c.n_light with state := LightState.Red },
               s_light := { c.s_light with state := LightState.Red },
               e_light := { c.e_light with state := LightState.Green },
               w_light := { c.w_light with state := LightState.Green } }
  | Phase.EastWest =>
      { c with phase := Phase.NorthSouth, phaseStart := now,
               e_light := { c.e_light with state := LightState.Red },
               w_light := { c.w_light with state := LightState.Red },
               n_light := { c.n_light with state := LightState.Green },
               s_light := { c.s_light with state := LightState.Green } }

/-- Cross-axis (lane-offset) coordinate of a rectangle for a given origin:
x for vertical travel, y for horizontal travel. -/
def crossAxis (o : Origin) (r : Rect) : ℤ :=
  match o with
  | Origin.North => r.x
  | Origin.South => r.x
  | Origin.East => r.y
  | Origin.West => r.y

/-- Cross-axis velocity component of a vehicle. -/
def crossVel (v : Vehicle) : ℚ :=
  match v.origin with
  | Origin.North => v.vx
  | Origin.South => v.vx
  | Origin.East => v.vy
  | Origin.West => v.vy

/-- The lane-offset table of the program: inbound offsets are the spawn
coordinates (lines 346-352), outbound offsets the reassignments of the
outbound transition (lines 222-249). -/
def laneOffset (o : Origin) (outb : Bool) : ℤ :=
  match o, outb with
  | Origin.North, false => 365
  | Origin.North, true => 410
  | Origin.South, false => 365
  | Origin.South, true => 410
  | Origin.East, false => 365
  | Origin.East, true => 410
  | Origin.West, false => 410
  | Origin.West, true => 365

/-- A vehicle sits on the lane offset determined by (origin, outbound) and
has no cross-axis velocity. -/
def laneAligned (v : Vehicle) : Prop :=
  crossAxis v.origin v.rect = laneOffset v.origin v.is_outbound ∧ crossVel v = 0

/-- A point of the integer grid covered by a rectangle (rectangles are
half-open along each axis). -/
def ptInRect (r : Rect) (p : ℤ × ℤ) : Prop :=
  r.x ≤ p.1 ∧ p.1 < r.right ∧ r.y ≤ p.2 ∧ p.2 < r.bottom

/-- A point inside the simulation window. -/
def ptInWindow (p : ℤ × ℤ) : Prop :=
  0 ≤ p.1 ∧ p.1 < (WINDOW_WIDTH : ℤ) ∧ 0 ≤ p.2 ∧ p.2 < (WINDOW_HEIGHT : ℤ)

/-- Spec-side reading of the cull rule: the rectangle lies fully outside
the simulation bounds, covering no point of the window. -/
def fullyOutsideBounds (r : Rect) : Prop :=
  ∀ p : ℤ × ℤ, ptInRect r p → ¬ ptInWindow p

/-- A fresh controller: NorthSouth phase, North/South Green. -/
def ctrlNS : LightController := LightController.new 0

/-- The controller after one expired, uncongested update: EastWest phase,
North/South Red. -/
def ctrlEW : LightController := (LightController.new 0).update 8 []

/-- A North-origin vehicle in lane, above the center, moving down. -/
def vehA : Vehicle where
  rect := ⟨365, 144, 25, 25⟩
  vx := 0
  vy := VEHICLE_SPEED
  color := colorFor Origin.North
  origin := Origin.North
  is_stopped := false
  is_outbound := false

/-- A North-origin vehicle 44 pixels behind `vehA`. -/
def vehB : Vehicle where
  rect := ⟨365, 100, 25, 25⟩
  vx := 0
  vy := VEHICLE_SPEED
  color := colorFor Origin.North
  origin := Origin.North
  is_stopped := false
  is_outbound := false

/-- A South-origin vehicle one step past the crossing threshold
(bottom = 398 < 400), not yet flagged outbound. -/
def vehS : Vehicle where
  rect := ⟨365, 373, 25, 25⟩
  vx := 0
  vy := -VEHICLE_SPEED
  color := colorFor Origin.South
  origin := Origin.South
  is_stopped := false
  is_outbound := false

/-- A South-origin vehicle already outbound (x = 410), still inside the
window the red-light check watches for South. -/
def vehSOut : Vehicle where
  rect := ⟨410, 373, 25, 25⟩
  vx := 0
  vy := -VEHICLE_SPEED
  color := colorFor Origin.South
  origin := Origin.South
  is_stopped := false
  is_outbound := true

/-- An East-origin vehicle just inside the stop window (150 < x < 325). -/
def vehE : Vehicle where
  rect := ⟨152, 365, 25, 25⟩
  vx := VEHICLE_SPEED
  vy := 0
  color := colorFor Origin.East
  origin := Origin.East
  is_stopped := false
  is_outbound := false

lemma update_eq_of_not_expired (c : LightController) (now : ℕ) (vs : List Vehicle)
    (h : ¬ c.baseDuration ≤ now - c.phaseStart) : c.update now vs = c := by
  unfold LightController.update
  rw [if_neg]
  exact fun hc => h hc.1

lemma update_eq_of_congested (c : LightController) (now : ℕ) (vs : List Vehicle)
    (hEl : c.baseDuration ≤ now - c.phaseStart)
    (h0 : 0 < congestedLaneCount c.phase vs) : c.update now vs = c := by
  unfold LightController.update
  rw [if_neg]
  rintro ⟨h1, h2⟩
  rw [if_pos hEl] at h2
  simp [h0] at h2

lemma update_eq_of_clear (c : LightController) (now : ℕ) (vs : List Vehicle)
    (hEl : c.baseDuration ≤ now - c.phaseStart)
    (h0 : congestedLaneCount c.phase vs = 0) :
    c.update now vs = flippedController c now := by
  unfold LightController.update flippedController
  rw [if_pos ⟨hEl, by rw [if_pos hEl]; simp [h0]⟩]

lemma lightsMatchPhase_flipped (c : LightController) (now : ℕ) :
    lightsMatchPhase (flippedController c now) := by
  cases hph : c.phase <;> simp [flippedController, hph, lightsMatchPhase]

lemma congested_pos_iff (ph : Phase) (vs : List Vehicle) :
    0 < congestedLaneCount ph vs ↔
      ∃ o ∈ greenOrigins ph, laneCapacity / 2 < queueSize vs o := by
  simp [congestedLaneCount, List.countP_pos_iff]

lemma queueSize_pos_iff (vs : List Vehicle) (o : Origin) :
    0 < queueSize vs o ↔ ∃ v ∈ vs, v.origin = o ∧ v.is_stopped = true := by
  simp [queueSize, ← List.countP_eq_length_filter, List.countP_pos_iff,
    Bool.and_eq_true, decide_eq_true_iff]

lemma oppositePhase_ne (ph : Phase) : oppositePhase ph ≠ ph := by
  cases ph <;> simp [oppositePhase]

lemma flipped_phase (c : LightController) (now : ℕ) :
    (flippedController c now).phase = oppositePhase c.phase := by
  cases hph : c.phase <;> simp [flippedController, oppositePhase, hph]

lemma flipped_start (c : LightController) (now : ℕ) :
    (flippedController c now).phaseStart = now := by
  cases hph : c.phase <;> simp [flippedController, hph]

lemma passUpTo_succ (c : LightController) (vs : List Vehicle) (n : ℕ) :
    passUpTo c vs (n + 1) = updateAt c (passUpTo c vs n) n := by
  simp [passUpTo, List.range_succ]

lemma updateAt_getElem_ne (c : LightController) (l : List Vehicle) (i j : ℕ)
    (h : i ≠ j) : (updateAt c l i)[j]? = l[j]? := by
  unfold updateAt
  cases hv : l[i]? with
  | none => rfl
  | some v => simp [List.getElem?_set_ne h]

lemma isAtRedLight_east (r : Rect) (hw : r.w = 25) (hx1 : 150 < r.x)
    (hx2 : r.x < 325) : isAtRedLight Origin.East r LightState.Red = true := by
  have hsl : stopLine = 325 := by decide
  have hrw : (ROAD_WIDTH : ℤ) = 150 := by decide
  simp only [isAtRedLight, Rect.right, hsl, hrw, hw, Bool.and_eq_true,
    decide_eq_true_iff, eq_self_iff_true, true_and]
  omega

lemma truncToInt_zero : truncToInt 0 = 0 := by decide

lemma afterCross_lane (o : Origin) (outb : Bool) (r : Rect)
    (h : crossAxis o r = laneOffset o outb) :
    crossAxis o (afterCross o outb r).2 = laneOffset o (afterCross o outb r).1 := by
  have hicx : intersectionCenterX = 400 := by decide
  have hicy : intersectionCenterY = 400 := by decide
  cases outb
  case true => simpa [afterCross] using h
  case false =>
    cases o
    case North =>
      by_cases hc : intersectionCenterY < r.y
      · norm_num [afterCross, hc, crossAxis, laneOffset, hicx]
      · simpa [afterCross, hc] using h
    case South =>
      by_cases hc : r.bottom < intersectionCenterY
      · norm_num [afterCross, hc, crossAxis, laneOffset, hicx]
      · simpa [afterCross, hc] using h
    case East =>
      by_cases hc : intersectionCenterX < r.right
      · norm_num [afterCross, hc, crossAxis, laneOffset, hicy]
      · simpa [afterCross, hc] using h
    case West =>
      by_cases hc : r.x < intersectionCenterX
      · norm_num [afterCross, hc, crossAxis, laneOffset, hicy]
      · simpa [afterCross, hc] using h

lemma inSimBounds_iff (v : Vehicle) (hw : 0 < v.rect.w) (hh : 0 < v.rect.h) :
    inSimBounds v = true ↔ ¬ fullyOutsideBounds v.rect := by
  have hW : ((WINDOW_WIDTH : ℕ) : ℤ) = 800 := by decide
  have hH : ((WINDOW_HEIGHT : ℕ) : ℤ) = 800 := by decide
  simp only [inSimBounds, Bool.and_eq_true, decide_eq_true_iff, Rect.right,
    Rect.bottom, hW, hH]
  constructor
  · rintro ⟨⟨⟨hb1, hb2⟩, hb3⟩, hb4⟩ hfo
    refine hfo (max v.rect.x 0, max v.rect.y 0) ?_ ?_
    · simp only [ptInRect, Rect.right, Rect.bottom]
      omega
    · simp only [ptInWindow, hW, hH]
      omega
  · intro hnfo
    by_contra hb
    apply hnfo
    intro p hp hpw
    simp only [ptInRect, Rect.right, Rect.bottom] at hp
    simp only [ptInWindow, hW, hH] at hpw
    apply hb
    omega

/-- C1: at every tick exactly two of the four lights are Green and they are
exactly the pair of the active phase, the other two Red; the invariant
holds in the initial state of `LightController.new` and is preserved by
every `LightController.update` call. -/
theorem lights_pair_invariant :
    (∀ now : ℕ, lightsMatchPhase (LightController.new now)) ∧
    (∀ c : LightController, lightsMatchPhase c → greenCount c = 2) ∧
    (∀ (c : LightController) (now : ℕ) (vs : List Vehicle),
      lightsMatchPhase c → lightsMatchPhase (c.update now vs)) := by
  refine ⟨?_, ?_, ?_⟩
  · intro now
    exact ⟨fun _ => ⟨rfl, rfl, rfl, rfl⟩, fun h => by cases h⟩
  · intro c h
    cases hph : c.phase
    · obtain ⟨h1, h2, h3, h4⟩ := h.1 hph
      simp [greenCount, lightStates, h1, h2, h3, h4]
    · obtain ⟨h1, h2, h3, h4⟩ := h.2 hph
      simp [greenCount, lightStates, h1, h2, h3, h4]
  · intro c now vs h
    by_cases hEl : c.baseDuration ≤ now - c.phaseStart
    · by_cases h0 : congestedLaneCount c.phase vs = 0
      · rw [update_eq_of_clear c now vs hEl h0]
        exact lightsMatchPhase_flipped c now
      · rw [update_eq_of_congested c now vs hEl (Nat.pos_of_ne_zero h0)]
        exact h
    · rw [update_eq_of_not_expired c now vs hEl]
      exact h

/-- Witness for C1 at the initial controller and one update call. -/
theorem lights_pair_invariant_check :
    lightsMatchPhase ((LightController.new 0).update 8 []) ∧
    greenCount (LightController.new 0) = 2 :=
  ⟨lights_pair_invariant.2.2 (LightController.new 0) 8 []
      (lights_pair_invariant.1 0),
   lights_pair_invariant.2.1 (LightController.new 0) (lights_pair_invariant.1 0)⟩

/-- C2: when `LightController.update` runs with elapsed time at least the
base duration, a green-pair origin whose stopped queue exceeds half of lane
capacity keeps the controller entirely unchanged (no flip, timer still
running, so the same check repeats on every subsequent tick); otherwise the
phase flips exactly once to the opposite pair, the timer resets to the
current instant, and the four lights hold the swapped Green/Red assignment
of the new phase. -/
theorem update_extends_or_flips (c : LightController) (now : ℕ) (vs : List Vehicle)
    (hEl : c.baseDuration ≤ now - c.phaseStart) :
    ((∃ o ∈ greenOrigins c.phase, laneCapacity / 2 < queueSize vs o) →
        c.update now vs = c) ∧
    ((¬ ∃ o ∈ greenOrigins c.phase, laneCapacity / 2 < queueSize vs o) →
        (c.update now vs).phase = oppositePhase c.phase ∧
        (c.update now vs).phaseStart = now ∧
        lightsMatchPhase (c.update now vs)) := by
  constructor
  · intro hex
    exact update_eq_of_congested c now vs hEl ((congested_pos_iff c.phase vs).mpr hex)
  · intro hnex
    have h0 : congestedLaneCount c.phase vs = 0 := by
      by_contra hne
      exact hnex ((congested_pos_iff c.phase vs).mp (Nat.pos_of_ne_zero hne))
    rw [update_eq_of_clear c now vs hEl h0]
    exact ⟨flipped_phase c now, flipped_start c now, lightsMatchPhase_flipped c now⟩

/-- Witness for C2 at a fresh controller whose timer has just expired. -/
theorem update_extends_or_flips_check :
    ((∃ o ∈ greenOrigins (LightController.new 0).phase,
        laneCapacity / 2 < queueSize [] o) →
      (LightController.new 0).update 8 [] = LightController.new 0) ∧
    ((¬ ∃ o ∈ greenOrigins (LightController.new 0).phase,
        laneCapacity / 2 < queueSize [] o) →
      ((LightController.new 0).update 8 []).phase =
          oppositePhase (LightController.new 0).phase ∧
      ((LightController.new 0).update 8 []).phaseStart = 8 ∧
      lightsMatchPhase ((LightController.new 0).update 8 [])) :=
  update_extends_or_flips (LightController.new 0) 8 [] (by decide)

/-- C3 counterexample: a South vehicle whose outbound transition fires on
the same tick the red light stops it ends the tick with stopped = true yet
a changed position (x jumps from 365 to the outbound lane 410), refuting
the claim that a stopped vehicle keeps the position of the previous tick. -/
theorem stopped_position_changed_cex :
    (vehicleStep ctrlEW vehS []).is_stopped = true ∧
    (vehicleStep ctrlEW vehS []).rect ≠ vehS.rect := by decide

/-- C3 amended: on a tick where the outbound transition does not fire, a
vehicle the resolution marks stopped keeps its position unchanged, and one
not marked stopped moves by exactly its velocity vector (as the code casts
it to integers) and nothing else; on a transition tick the cross-axis
reassignment to the outbound lane is applied first. -/
theorem resolution_moves_by_velocity (c : LightController) (v : Vehicle)
    (others : List Vehicle)
    (h : afterCross v.origin v.is_outbound v.rect = (v.is_outbound, v.rect)) :
    ((vehicleStep c v others).is_stopped = true → (vehicleStep c v others).rect = v.rect) ∧
    ((vehicleStep c v others).is_stopped = false →
        (vehicleStep c v others).rect = moveRect v.rect v.vx v.vy) := by
  unfold vehicleStep
  rw [h]
  split <;> simp

/-- Witness for the amended C3 at a North vehicle short of the center. -/
theorem resolution_moves_by_velocity_check :
    ((vehicleStep ctrlNS vehA []).is_stopped = true →
        (vehicleStep ctrlNS vehA []).rect = vehA.rect) ∧
    ((vehicleStep ctrlNS vehA []).is_stopped = false →
        (vehicleStep ctrlNS vehA []).rect = moveRect vehA.rect vehA.vx vehA.vy) :=
  resolution_moves_by_velocity ctrlNS vehA [] (by decide)

/-- C4 counterexample: two North vehicles 44 pixels apart.  In the source
pass the leader has already moved (gap 46) when the follower is processed,
so the follower moves too; against a true pre-tick snapshot the follower
would see gap 44 and stop.  The in-place pass is therefore not equivalent
to a pass computed from a snapshot taken before any vehicle moved. -/
theorem inplace_vs_snapshot_cex :
    motionPass ctrlNS [vehA, vehB] ≠ snapshotPass ctrlNS [vehA, vehB] := by decide

/-- C4 amended: the per-vehicle pass is sequential.  At iteration `i` the
live list still agrees with the pre-tick list at every index at or beyond
`i` (so comparisons against later-indexed peers do read pre-tick state),
while entries below `i` have already been updated this tick; the whole pass
is the fold of those iterations, not a snapshot pass. -/
theorem pass_reads_pretick (c : LightController) (vs : List Vehicle) (i j : ℕ)
    (h : i ≤ j) :
    (passUpTo c vs i)[j]? = vs[j]? ∧ motionPass c vs = passUpTo c vs vs.length := by
  refine ⟨?_, rfl⟩
  induction i with
  | zero => rfl
  | succ n ih =>
    rw [passUpTo_succ, updateAt_getElem_ne c _ n j (by omega), ih (by omega)]

/-- Witness for the amended C4 on a two-vehicle list. -/
theorem pass_reads_pretick_check :
    (passUpTo ctrlNS [vehA, vehB] 1)[1]? = [vehA, vehB][1]? ∧
    motionPass ctrlNS [vehA, vehB] = passUpTo ctrlNS [vehA, vehB] 2 := by
  have h := pass_reads_pretick ctrlNS [vehA, vehB] 1 1 (by decide)
  simpa using h

/-- C5 counterexample: an already-outbound South vehicle (no longer
approaching) inside the geometric window is still reported at a red light
and freezes in place, refuting the restriction of the check to vehicles
that are still approaching. -/
theorem red_check_outbound_cex :
    vehSOut.is_outbound = true ∧ redCheck ctrlEW vehSOut = true ∧
    (vehicleStep ctrlEW vehSOut []).is_stopped = true ∧
    (vehicleStep ctrlEW vehSOut []).rect = vehSOut.rect := by decide

/-- C5 amended: the at-red-light condition reads only the origin, the
pre-step rectangle and that origin's light — never the outbound flag, so it
also fires for vehicles already past the center; and (Scenario C) an
approaching East vehicle inside the stop window with the EastWest light Red
is stopped with its position unchanged on every such tick. -/
theorem red_check_geometry :
    (∀ (c : LightController) (v : Vehicle) (b : Bool),
        redCheck c { v with is_outbound := b } = redCheck c v) ∧
    (∀ (c : LightController) (v : Vehicle) (others : List Vehicle),
        v.origin = Origin.East → v.is_outbound = false → v.rect.w = 25 →
        c.e_light.state = LightState.Red →
        150 < v.rect.x → v.rect.x < 325 →
        (vehicleStep c v others).is_stopped = true ∧
        (vehicleStep c v others).rect = v.rect) := by
  constructor
  · intro c v b
    rfl
  · intro c v others ho hb hw hred hx1 hx2
    have hcx : intersectionCenterX = 400 := by decide
    have hnr : ¬ (intersectionCenterX < v.rect.right) := by
      rw [hcx, Rect.right, hw]
      omega
    have hcross : afterCross v.origin v.is_outbound v.rect = (v.is_outbound, v.rect) := by
      rw [ho, hb]
      simp [afterCross, hnr]
    have hlight : c.lightStateFor v.origin = LightState.Red := by
      rw [ho]
      exact hred
    have hrc : redCheck c v = true := by
      unfold redCheck
      rw [hlight, ho]
      exact isAtRedLight_east v.rect hw hx1 hx2
    unfold vehicleStep
    rw [hcross, hrc]
    simp

/-- Witness for the amended C5: the outbound flag is inert on `vehS`, and
the concrete East vehicle `vehE` stops in place during NorthSouth green. -/
theorem red_check_geometry_check :
    redCheck ctrlNS { vehS with is_outbound := true } = redCheck ctrlNS vehS ∧
    ((vehicleStep ctrlNS vehE []).is_stopped = true ∧
      (vehicleStep ctrlNS vehE []).rect = vehE.rect) :=
  ⟨red_check_geometry.1 ctrlNS vehS true,
   red_check_geometry.2 ctrlNS vehE [] (by decide) (by decide) (by decide)
     (by decide) (by decide) (by decide)⟩

/-- C6: a signed gap of exactly vehicleHeight + safetyGap = 45 is not
blocking while 44 is, and a vehicle is marked stopped-by-car precisely when
some peer of the same origin and outbound flag sits at a gap strictly
between 0 and vehicleHeight + safetyGap ahead of it. -/
theorem gap_boundary_characterization :
    isBlockingGap 45 = false ∧ isBlockingGap 44 = true ∧
    (VEHICLE_HEIGHT : ℚ) + SAFETY_GAP = 45 ∧
    ∀ (v : Vehicle) (others : List Vehicle),
      stoppedByCar v others = true ↔
        ∃ w ∈ others, w.origin = v.origin ∧ w.is_outbound = v.is_outbound ∧
          0 < gapAhead v.origin v.rect w.rect ∧
          ((gapAhead v.origin v.rect w.rect : ℚ) < (VEHICLE_HEIGHT : ℚ) + SAFETY_GAP) := by
  refine ⟨by decide, by decide, by decide, ?_⟩
  intro v others
  simp [stoppedByCar, List.any_eq_true, isBlockingGap, Bool.and_eq_true,
    decide_eq_true_iff, beq_iff_eq, and_assoc]

/-- C7: every vehicle the program creates or steps keeps its cross-axis
coordinate equal to the lane-offset table at (origin, outbound): spawn
establishes the inbound offset, and `vehicleStep` — which contains both the
outbound reassignment and the movement — preserves the alignment. -/
theorem lane_offset_pure :
    (∀ (o : Origin) (k : Fin 3), laneAligned (spawn_vehicle o k)) ∧
    (∀ (c : LightController) (v : Vehicle) (others : List Vehicle),
        laneAligned v → laneAligned (vehicleStep c v others)) := by
  constructor
  · intro o k
    have hk : spawn_vehicle o k = spawn_vehicle o 0 := rfl
    rw [hk]
    cases o <;> exact ⟨by decide, rfl⟩
  · intro c v others h
    obtain ⟨h1, h2⟩ := h
    have hp := afterCross_lane v.origin v.is_outbound v.rect h1
    unfold vehicleStep
    split
    · exact ⟨hp, h2⟩
    · refine ⟨?_, h2⟩
      cases ho : v.origin <;>
        simp only [ho, crossVel] at h2 <;>
        simp only [ho, crossAxis, moveRect] at hp ⊢ <;>
        rw [h2, truncToInt_zero, add_zero] <;>
        exact hp

/-- Witness for C7 at a West spawn and one stepped North spawn. -/
theorem lane_offset_pure_check :
    laneAligned (spawn_vehicle Origin.West 2) ∧
    laneAligned (vehicleStep ctrlNS (spawn_vehicle Origin.North 0) []) :=
  ⟨lane_offset_pure.1 Origin.West 2,
   lane_offset_pure.2 ctrlNS (spawn_vehicle Origin.North 0) []
     (lane_offset_pure.1 Origin.North 0)⟩

/-- C8: after the per-tick pass, a vehicle (of positive extent) survives
the cull exactly when it was in the list and its rectangle is not fully
outside the simulation bounds; equivalently, the removed vehicles are
exactly those whose rectangle covers no point of the window. -/
theorem cull_iff_fully_outside (vs : List Vehicle) (v : Vehicle)
    (hw : 0 < v.rect.w) (hh : 0 < v.rect.h) :
    v ∈ cullVehicles vs ↔ v ∈ vs ∧ ¬ fullyOutsideBounds v.rect := by
  rw [cullVehicles, List.mem_filter, inSimBounds_iff v hw hh]

/-- Witness for C8 at a singleton list. -/
theorem cull_iff_fully_outside_check :
    vehA ∈ cullVehicles [vehA] ↔ vehA ∈ [vehA] ∧ ¬ fullyOutsideBounds vehA.rect :=
  cull_iff_fully_outside [vehA] vehA (by decide) (by decide)

/-- C9 counterexample: two different route draws produce identical
vehicles, so the route tag is not recorded on the created vehicle (the
`Vehicle` struct has no route field; the draw is bound to `_route` and
dropped). -/
theorem route_not_recorded_cex :
    routeOf 0 ≠ routeOf 1 ∧
    spawn_vehicle Origin.North 0 = spawn_vehicle Origin.North 1 := by decide

/-- C9 amended: the spawn draw maps the uniform range 0..3 onto the three
routes with exactly one preimage each (so the tag is uniformly random), and
the draw never influences behavior: spawns differing only in the route draw
produce equal vehicles, hence identical subsequent simulation state. -/
theorem route_uniform_inert :
    (∀ t : Route,
      ((List.finRange 3).filter (fun k => decide (routeOf k = t))).length = 1) ∧
    (∀ (o : Origin) (k1 k2 : Fin 3), spawn_vehicle o k1 = spawn_vehicle o k2) := by
  constructor
  · intro t
    cases t <;> decide
  · intro o k1 k2
    rfl

/-- C10: with the program constants, lane capacity is exactly 1 and the
congestion threshold 1 / 2 = 0, so at phase expiry the update keeps the
current phase exactly when at least one stopped vehicle of a currently
green origin exists. -/
theorem lane_capacity_one :
    laneCapacity = 1 ∧ laneCapacity / 2 = 0 ∧
    ∀ (c : LightController) (now : ℕ) (vs : List Vehicle),
      c.baseDuration ≤ now - c.phaseStart →
      ((c.update now vs).phase = c.phase ↔
        ∃ v ∈ vs, v.is_stopped = true ∧ v.origin ∈ greenOrigins c.phase) := by
  refine ⟨by decide, by decide, ?_⟩
  intro c now vs hEl
  have hcap : laneCapacity / 2 = 0 := by decide
  by_cases h0 : congestedLaneCount c.phase vs = 0
  · rw [update_eq_of_clear c now vs hEl h0, flipped_phase c now]
    constructor
    · intro hph
      exact absurd hph (oppositePhase_ne c.phase)
    · rintro ⟨v, hv, hst, ho⟩
      exfalso
      have : 0 < congestedLaneCount c.phase vs := by
        rw [congested_pos_iff]
        refine ⟨v.origin, ho, ?_⟩
        rw [hcap]
        exact (queueSize_pos_iff vs v.origin).mpr ⟨v, hv, rfl, hst⟩
      omega
  · have hpos := Nat.pos_of_ne_zero h0
    rw [update_eq_of_congested c now vs hEl hpos]
    simp only [true_iff, iff_true]
    obtain ⟨o, ho, hq⟩ := (congested_pos_iff c.phase vs).mp hpos
    rw [hcap] at hq
    obtain ⟨v, hv, hvo, hst⟩ := (queueSize_pos_iff vs o).mp hq
    exact ⟨v, hv, hst, hvo ▸ ho⟩

/-- Witness for C10 at an expired fresh controller with no vehicles. -/
theorem lane_capacity_one_check :
    ((LightController.new 0).update 8 []).phase = (LightController.new 0).phase ↔
      ∃ v ∈ ([] : List Vehicle), v.is_stopped = true ∧
        v.origin ∈ greenOrigins (LightController.new 0).phase :=
  lane_capacity_one.2.2 (LightController.new 0) 8 [] (by decide)

end RoadIntersection
